import Mathlib

/-!
Verification development for the TrainForge orchestration core.

The definitions below are a shallow embedding of the Python sources:

* `trainforge/scheduler/src/gpu_manager.py`   — `GPUResourceManager`
* `trainforge/scheduler/src/cpu_manager.py`   — `CPUResourceManager`
* `trainforge/scheduler/src/job_scheduler.py` — `JobScheduler`
* `trainforge/scheduler/src/container_manager.py` — `ContainerManager`
* `trainforge/scheduler/src/distributed_trainer.py` — `DistributedTrainer`
* `trainforge/worker/worker.py`               — `TrainForgeWorker`

Python dictionaries are modelled as insertion-ordered association lists,
floats as rationals, wall-clock times as explicit rational parameters, and
external effects (Docker, subprocesses, HTTP) as explicit parameters that
describe the observed outcome of the effect.
-/

/-- Association-list lookup by a string key: the analogue of `dict.get`.
Returns the first entry whose key matches. -/
def findBy {α : Type} (key : α → String) : List α → String → Option α
  | [], _ => none
  | x :: rest, k => if key x == k then some x else findBy key rest k

/-- Association-list update by a string key: the analogue of `d[k] = v`.
Replaces the entry with the same key if present, otherwise appends. -/
def updateBy {α : Type} (key : α → String) : List α → α → List α
  | [], a => [a]
  | x :: rest, a => if key x == key a then a :: rest else x :: updateBy key rest a

/-- Association-list removal by key: the analogue of `del d[k]`. -/
def removeBy {α : Type} (key : α → String) (l : List α) (k : String) : List α :=
  l.filter (fun x => !(key x == k))

/-- `GPUStatus` from gpu_manager.py. -/
inductive GPUStatus where
  | available
  | allocated
  | busy
  | error
deriving DecidableEq

/-- `GPUInfo` from gpu_manager.py: one device of the local table. -/
structure GPUInfo where
  gpu_id : Nat
  name : String
  memory_total_mb : Nat
  memory_used_mb : Nat
  memory_free_mb : Nat
  utilization_percent : ℚ
  temperature_celsius : Int
  power_usage_watts : Int
  status : GPUStatus
  allocated_to : Option String
  allocated_memory_mb : Nat
deriving DecidableEq

/-- `GPUAllocation` from gpu_manager.py. -/
structure GPUAllocation where
  job_id : String
  gpu_ids : List Nat
  allocated_memory_mb : Nat
  allocated_at : ℚ
  worker_node : String
deriving DecidableEq

/-- The mutable state of `GPUResourceManager`: the `gpus` dict (keyed by
`gpu_id`, modelled as the insertion-ordered list of its values) and the
`allocations` dict (keyed by `job_id`). -/
structure GPUManagerState where
  gpus : List GPUInfo
  allocations : List GPUAllocation
deriving DecidableEq

/-- Lookup of `self.allocations[job_id]`. -/
def lookupGPUAllocation (allocs : List GPUAllocation) (job_id : String) :
    Option GPUAllocation :=
  findBy (fun a => a.job_id) allocs job_id

/-- The eligibility test inside `allocate_gpus`: status is AVAILABLE and
`memory_free_mb >= memory_per_gpu_mb`. -/
def gpuEligible (memory_per_gpu_mb : Nat) (g : GPUInfo) : Bool :=
  g.status == GPUStatus.available && memory_per_gpu_mb ≤ g.memory_free_mb

/-- The `available_gpus` list collected by `allocate_gpus`: ids of eligible
devices in table (insertion) order. -/
def availableGPUIds (s : GPUManagerState) (memory_per_gpu_mb : Nat) : List Nat :=
  (s.gpus.filter (gpuEligible memory_per_gpu_mb)).map (fun g => g.gpu_id)

/-- `GPUResourceManager.allocate_gpus`. Returns the allocated indices (empty
on failure, which is how the Python code signals InsufficientResources) and
the new manager state. `now` stands for `time.time()`. -/
def allocate_gpus (s : GPUManagerState) (job_id : String) (num_gpus : Nat)
    (memory_per_gpu_mb : Nat) (now : ℚ) : List Nat × GPUManagerState :=
  if num_gpus ≤ 0 then ([], s)
  else
    let available_gpus := availableGPUIds s memory_per_gpu_mb
    if available_gpus.length < num_gpus then ([], s)
    else
      let allocated_gpus := available_gpus.take num_gpus
      let gpus' := s.gpus.map (fun g =>
        if g.gpu_id ∈ allocated_gpus then
          { g with status := GPUStatus.allocated,
                   allocated_to := some job_id,
                   allocated_memory_mb := memory_per_gpu_mb }
        else g)
      let allocation : GPUAllocation :=
        { job_id := job_id
          gpu_ids := allocated_gpus
          allocated_memory_mb := memory_per_gpu_mb * num_gpus
          allocated_at := now
          worker_node := "localhost" }
      (allocated_gpus,
        { gpus := gpus'
          allocations := updateBy (fun a => a.job_id) s.allocations allocation })

/-- `GPUResourceManager.deallocate_gpus`: no-op when the job has no
allocation record; otherwise frees exactly the devices listed in the record
and deletes the record. -/
def deallocate_gpus (s : GPUManagerState) (job_id : String) : GPUManagerState :=
  match lookupGPUAllocation s.allocations job_id with
  | none => s
  | some allocation =>
      { gpus := s.gpus.map (fun g =>
          if g.gpu_id ∈ allocation.gpu_ids then
            { g with status := GPUStatus.available,
                     allocated_to := none,
                     allocated_memory_mb := 0 }
          else g)
        allocations := removeBy (fun a => a.job_id) s.allocations job_id }

/-- One public call on the GPU manager: `allocate_gpus` or `deallocate_gpus`. -/
inductive GPUOp where
  | alloc (job_id : String) (num_gpus : Nat) (memory_per_gpu_mb : Nat) (now : ℚ)
  | dealloc (job_id : String)
deriving DecidableEq

/-- Effect of one call on the manager state. -/
def applyGPUOp (s : GPUManagerState) : GPUOp → GPUManagerState
  | GPUOp.alloc j n m t => (allocate_gpus s j n m t).2
  | GPUOp.dealloc j => deallocate_gpus s j

/-- State after a sequence of calls. -/
def runGPUOps (s : GPUManagerState) (ops : List GPUOp) : GPUManagerState :=
  ops.foldl applyGPUOp s

/-- Well-formedness of the manager state as it leaves discovery: device ids
are pairwise distinct (they key the `gpus` dict) and no allocation exists. -/
def GPUInitOk (s : GPUManagerState) : Prop :=
  (s.gpus.map (fun g => g.gpu_id)).Nodup ∧ s.allocations = []

/-- The ledger invariant the GPU manager maintains: distinct device ids,
distinct allocation keys, every device listed in a record is marked
ALLOCATED and held by that record's job, and every id listed in a record
names an actual device. -/
def GPUInv (s : GPUManagerState) : Prop :=
  (s.gpus.map (fun g => g.gpu_id)).Nodup ∧
  (s.allocations.map (fun a => a.job_id)).Nodup ∧
  (∀ g ∈ s.gpus, ∀ a ∈ s.allocations,
    g.gpu_id ∈ a.gpu_ids → g.allocated_to = some a.job_id ∧ g.status = GPUStatus.allocated) ∧
  (∀ a ∈ s.allocations, ∀ i ∈ a.gpu_ids, ∃ g ∈ s.gpus, g.gpu_id = i)

/-- No device is held by two jobs: a device listed in a record is held by
exactly that record's job, and no index is listed in two records of
different jobs. -/
def GPUNoDoubleHold (s : GPUManagerState) : Prop :=
  (∀ g ∈ s.gpus, ∀ a ∈ s.allocations, g.gpu_id ∈ a.gpu_ids → g.allocated_to = some a.job_id) ∧
  (∀ a ∈ s.allocations, ∀ b ∈ s.allocations, ∀ i, i ∈ a.gpu_ids → i ∈ b.gpu_ids →
    a.job_id = b.job_id)

/-- Completeness of the GPU ledger for one job: every device holding the job
is listed in an allocation record of that job, and such a record exists.
This is exactly what a double `allocate_gpus` for the same job id breaks. -/
def GPULedgerComplete (s : GPUManagerState) (job_id : String) : Prop :=
  ∀ g ∈ s.gpus, g.allocated_to = some job_id →
    (∃ a ∈ s.allocations, a.job_id = job_id) ∧
    (∀ a ∈ s.allocations, a.job_id = job_id → g.gpu_id ∈ a.gpu_ids)

instance (s : GPUManagerState) (job_id : String) :
    Decidable (GPULedgerComplete s job_id) := by
  unfold GPULedgerComplete
  infer_instance

instance (s : GPUManagerState) : Decidable (GPUInitOk s) := by
  unfold GPUInitOk
  infer_instance

/-- The spec's eligibility rule for `AllocateGPUs` (§4.1): status AVAILABLE
and `total − reserved ≥ memory_floor_mib`. Stated from the spec's words for
comparison with `gpuEligible`, which the source actually uses. -/
def specGPUEligible (memory_floor_mib : Nat) (g : GPUInfo) : Bool :=
  g.status == GPUStatus.available &&
    memory_floor_mib ≤ g.memory_total_mb - g.allocated_memory_mb

/-- Insertion step of the spec's ordering: largest free memory first, then
lowest device index. Stated from the spec's words for comparison. -/
def specInsertGPU (g : GPUInfo) : List GPUInfo → List GPUInfo
  | [] => [g]
  | h :: t =>
      if h.memory_free_mb < g.memory_free_mb ∨
         (h.memory_free_mb = g.memory_free_mb ∧ g.gpu_id < h.gpu_id) then
        g :: h :: t
      else h :: specInsertGPU g t

/-- Insertion sort by the spec's ordering. Stated from the spec's words. -/
def specSortGPUs : List GPUInfo → List GPUInfo
  | [] => []
  | g :: rest => specInsertGPU g (specSortGPUs rest)

/-- The device indices the spec says `AllocateGPUs` selects: the eligible
devices ordered by largest free memory then lowest index, truncated to the
requested count. Stated from the spec's words for comparison with
`allocate_gpus`. -/
def specSelectGPUIds (s : GPUManagerState) (count : Nat) (memory_floor_mib : Nat) :
    List Nat :=
  ((specSortGPUs (s.gpus.filter (specGPUEligible memory_floor_mib))).map
    (fun g => g.gpu_id)).take count

/-- `CPUStatus` from cpu_manager.py. -/
inductive CPUStatus where
  | available
  | allocated
  | busy
  | overloaded
deriving DecidableEq

/-- `CPUCoreInfo` from cpu_manager.py. -/
structure CPUCoreInfo where
  core_id : Nat
  usage_percent : ℚ
  frequency_mhz : ℚ
  temperature : Option ℚ
  allocated_to : Option String
  status : CPUStatus
deriving DecidableEq

/-- `CPUNodeInfo` from cpu_manager.py. -/
structure CPUNodeInfo where
  node_id : Nat
  cores : List CPUCoreInfo
  total_cores : Nat
  available_cores : Nat
  memory_gb : ℚ
  memory_used_gb : ℚ
  memory_available_gb : ℚ
  cache_l3_kb : Nat
  architecture : String
  status : CPUStatus
deriving DecidableEq

/-- `CPUAllocation` from cpu_manager.py. -/
structure CPUAllocation where
  job_id : String
  allocated_cores : List Nat
  allocated_memory_gb : ℚ
  node_ids : List Nat
  allocated_at : ℚ
  worker_node : String
  process_affinity : Bool
  priority : Int
deriving DecidableEq

/-- The mutable state of `CPUResourceManager`: the `nodes` dict (keyed by
`node_id`, modelled as the insertion-ordered list of its values) and the
`allocations` dict (keyed by `job_id`). -/
structure CPUManagerState where
  nodes : List CPUNodeInfo
  allocations : List CPUAllocation
deriving DecidableEq

/-- Lookup of the CPU manager's `self.allocations[job_id]`. -/
def lookupCPUAllocation (allocs : List CPUAllocation) (job_id : String) :
    Option CPUAllocation :=
  findBy (fun a => a.job_id) allocs job_id

/-- `CPUResourceManager.deallocate_cpus`: no-op when the job has no record;
otherwise scans every node and frees every core whose holder is the job,
adjusts node counters, and deletes the record. -/
def deallocate_cpus (c : CPUManagerState) (job_id : String) : CPUManagerState :=
  match lookupCPUAllocation c.allocations job_id with
  | none => c
  | some allocation =>
      { nodes := c.nodes.map (fun node =>
          let freed_cores :=
            (node.cores.filter (fun core => core.allocated_to == some job_id)).length
          { node with
            cores := node.cores.map (fun core =>
              if core.allocated_to == some job_id then
                { core with status := CPUStatus.available, allocated_to := none }
              else core)
            available_cores := node.available_cores + freed_cores
            memory_available_gb :=
              if 0 < freed_cores then
                node.memory_available_gb +
                  allocation.allocated_memory_gb / (allocation.node_ids.length : ℚ)
              else node.memory_available_gb })
        allocations := removeBy (fun a => a.job_id) c.allocations job_id }

/-- Completeness of the CPU ledger for one job: if some core holds the job
then an allocation record keyed by the job exists. (`deallocate_cpus`
itself frees by scanning holders, so no per-core listing is needed.) -/
def CPULedgerComplete (c : CPUManagerState) (job_id : String) : Prop :=
  (∃ a ∈ c.allocations, a.job_id = job_id) ∨
  (∀ node ∈ c.nodes, ∀ core ∈ node.cores, core.allocated_to ≠ some job_id)

instance (c : CPUManagerState) (job_id : String) :
    Decidable (CPULedgerComplete c job_id) := by
  unfold CPULedgerComplete
  infer_instance

/-- `JobPriority` from job_scheduler.py. -/
inductive JobPriority where
  | low
  | normal
  | high
  | urgent
deriving DecidableEq

/-- The `base_score` table inside `JobScheduler._calculate_priority_score`. -/
def priorityBaseScore : JobPriority → ℚ
  | JobPriority.urgent => 0
  | JobPriority.high => 100
  | JobPriority.normal => 200
  | JobPriority.low => 300

/-- The fields of `JobRequest` the scheduler reads: `gpu_count` and
`memory_per_gpu` stand for `resource_requirements['gpu']` and
`resource_requirements['memory_per_gpu']`. -/
structure SchedJobRequest where
  job_id : String
  project_name : String
  training_script : String
  gpu_count : Nat
  memory_per_gpu : Nat
  priority : JobPriority
  submitted_at : ℚ
deriving DecidableEq

/-- `JobScheduler._calculate_priority_score`: base(priority) minus the wait
bonus (one point per hour waited) plus 10 per requested GPU; lower scores
are scheduled first. `now` stands for `time.time()`. -/
def calculate_priority_score (now : ℚ) (r : SchedJobRequest) : ℚ :=
  priorityBaseScore r.priority - (now - r.submitted_at) / 3600 + r.gpu_count * 10

/-- One entry of `JobScheduler.job_queue`: the tuple
`(priority_score, time.time(), job_request)` put by `submit_job`. -/
structure QueueEntry where
  score : ℚ
  enqueued_at : ℚ
  request : SchedJobRequest
deriving DecidableEq

/-- The strict order `queue.PriorityQueue` dequeues by on these tuples:
lower score first, and among equal scores the earlier put time first. -/
def queueEntryLt (a b : QueueEntry) : Prop :=
  a.score < b.score ∨ (a.score = b.score ∧ a.enqueued_at < b.enqueued_at)

instance (a b : QueueEntry) : Decidable (queueEntryLt a b) := by
  unfold queueEntryLt
  infer_instance

/-- The entry `submit_job` pushes at time `now` for a freshly constructed
request: `JobRequest.__post_init__` stamps `submitted_at = now` and
`submit_job` puts `(score, now, request)`. -/
def submitFresh (now : ℚ) (r : SchedJobRequest) : QueueEntry :=
  { score := calculate_priority_score now { r with submitted_at := now }
    enqueued_at := now
    request := { r with submitted_at := now } }

/-- The entry `_schedule_pending_jobs` re-puts when a job could not be
scheduled: the score is recomputed at requeue time and the tuple's middle
element is the requeue `time.time()`, while the request keeps its original
`submitted_at`. -/
def requeueEntry (now : ℚ) (r : SchedJobRequest) : QueueEntry :=
  { score := calculate_priority_score now r
    enqueued_at := now
    request := r }

/-- The entry `queue.PriorityQueue.get` returns: the minimum of the queue
under `queueEntryLt`, earliest-inserted among incomparable entries. -/
def dequeueMin : List QueueEntry → Option QueueEntry
  | [] => none
  | e :: es => some (es.foldl (fun m x => if queueEntryLt x m then x else m) e)

/-- A LOW-priority single-GPU request submitted at time 0. -/
def cexRequeuedLow : SchedJobRequest :=
  { job_id := "job-A"
    project_name := "demo-project"
    training_script := "train.py"
    gpu_count := 1
    memory_per_gpu := 4096
    priority := JobPriority.low
    submitted_at := 0 }

/-- A NORMAL-priority single-GPU request submitted at time 359000. -/
def cexFreshNormal : SchedJobRequest :=
  { job_id := "job-B"
    project_name := "demo-project"
    training_script := "train.py"
    gpu_count := 1
    memory_per_gpu := 4096
    priority := JobPriority.normal
    submitted_at := 359000 }

/-- `ScheduledJob` from job_scheduler.py (the fields the modelled paths
touch). -/
structure ScheduledJob where
  request : SchedJobRequest
  allocated_gpus : List Nat
  worker_nodes : List String
  container_ids : List String
  started_at : ℚ
deriving DecidableEq

/-- The `JobScheduler` state the modelled paths touch: the three job dicts
(keyed by job id, modelled as insertion-ordered pair lists) and the global
`gpu_manager` state the scheduler mutates through. -/
structure SchedulerState where
  running_jobs : List (String × ScheduledJob)
  completed_jobs : List (String × ScheduledJob)
  failed_jobs : List (String × ScheduledJob)
  gpu : GPUManagerState
deriving DecidableEq

/-- Lookup in one of the scheduler's job dicts. -/
def lookupJob (job_id : String) (jobs : List (String × ScheduledJob)) :
    Option ScheduledJob :=
  (findBy (fun p => p.1) jobs job_id).map (fun p => p.2)

/-- `JobScheduler.cancel_job`: for a running job it stops the containers
(external effect), deallocates the GPUs, removes the job from
`running_jobs` and stores it in `failed_jobs` (the line commented
"Mark as cancelled"), returning True; otherwise returns False. -/
def cancel_job (st : SchedulerState) (job_id : String) : Bool × SchedulerState :=
  match lookupJob job_id st.running_jobs with
  | some scheduled_job =>
      (true,
        { st with
          gpu := deallocate_gpus st.gpu job_id
          running_jobs := removeBy (fun p => p.1) st.running_jobs job_id
          failed_jobs := updateBy (fun p => p.1) st.failed_jobs (job_id, scheduled_job) })
  | none => (false, st)

/-- The `"status"` field of the dict `JobScheduler.get_job_status` returns:
"running", "completed" or "failed" according to which dict holds the job,
checked in that order; `none` models the Python `None` for an unknown job. -/
def get_job_status (st : SchedulerState) (job_id : String) : Option String :=
  match lookupJob job_id st.running_jobs with
  | some _ => some "running"
  | none =>
      match lookupJob job_id st.completed_jobs with
      | some _ => some "completed"
      | none =>
          match lookupJob job_id st.failed_jobs with
          | some _ => some "failed"
          | none => none

/-- What probing one container in
`ContainerManager.get_container_exit_codes` can observe: the container is
gone (`docker.errors.NotFound`), the probe raised some other error, or the
container finished with an exit code. -/
inductive ContainerProbe where
  | notFound
  | probeError
  | exited (code : Int)
deriving DecidableEq

/-- The exit code recorded for one probed container: `None` when the
container no longer exists or the probe errored. -/
def containerProbeExitCode : ContainerProbe → Option Int
  | ContainerProbe.notFound => none
  | ContainerProbe.probeError => none
  | ContainerProbe.exited code => some code

/-- `ContainerManager.get_container_exit_codes`: all `None` when the Docker
client is unavailable, otherwise one entry per container. -/
def get_container_exit_codes (docker_client : Bool) (probes : List ContainerProbe) :
    List (Option Int) :=
  if docker_client then probes.map containerProbeExitCode
  else probes.map (fun _ => none)

/-- The success test inside `JobScheduler._check_completed_jobs`:
`all(code == 0 for code in exit_codes if code is not None)` — undetermined
(None) exit codes are skipped by the generator filter. -/
def jobExitSuccess (exit_codes : List (Option Int)) : Bool :=
  exit_codes.all (fun code =>
    match code with
    | none => true
    | some c => c == 0)

/-- `JobScheduler._mark_job_completed`: deallocate the job's GPUs, clean up
containers (external effect) and store the job in `completed_jobs`. -/
def mark_job_completed (st : SchedulerState) (job_id : String) (j : ScheduledJob) :
    SchedulerState :=
  { st with
    gpu := deallocate_gpus st.gpu job_id
    completed_jobs := updateBy (fun p => p.1) st.completed_jobs (job_id, j) }

/-- `JobScheduler._mark_job_failed` on a `ScheduledJob`: deallocate GPUs
only when some were allocated, clean up containers (external effect) and
store the job in `failed_jobs`. -/
def mark_job_failed (st : SchedulerState) (job_id : String) (j : ScheduledJob) :
    SchedulerState :=
  { st with
    gpu := if j.allocated_gpus ≠ [] then deallocate_gpus st.gpu job_id else st.gpu
    failed_jobs := updateBy (fun p => p.1) st.failed_jobs (job_id, j) }

/-- One running job's pass through `JobScheduler._check_completed_jobs` at a
tick where `are_containers_completed` answered True: read the exit codes,
classify with `jobExitSuccess`, mark completed or failed, and remove the job
from `running_jobs`. -/
def check_completed_job (st : SchedulerState) (job_id : String)
    (docker_client : Bool) (probes : List ContainerProbe) : SchedulerState :=
  match lookupJob job_id st.running_jobs with
  | none => st
  | some j =>
      let exit_codes := get_container_exit_codes docker_client probes
      let st' :=
        if jobExitSuccess exit_codes then mark_job_completed st job_id j
        else mark_job_failed st job_id j
      { st' with running_jobs := removeBy (fun p => p.1) st'.running_jobs job_id }

/-- Environment lookup: first binding of the key, the analogue of
`env.get(k)`. -/
def envLookup : List (String × String) → String → Option String
  | [], _ => none
  | p :: rest, k => if p.1 == k then some p.2 else envLookup rest k

/-- `dict.update` with a list of overriding bindings. -/
def envUpdate (base : List (String × String)) : List (String × String) →
    List (String × String)
  | [] => base
  | kv :: rest => envUpdate (updateBy (fun p => p.1) base kv) rest

/-- `','.join(map(str, gpu_ids))`. -/
def joinGPUIds (gpu_ids : List Nat) : String :=
  String.intercalate "," (gpu_ids.map (fun i => toString i))

/-- The `environment` dict built by
`ContainerManager._prepare_container_config`, including the free-form
`config['environment']['variables']` applied last via `dict.update`. -/
def prepare_container_environment (job_id : String) (gpu_ids : List Nat)
    (config_env_vars : List (String × String)) : List (String × String) :=
  envUpdate
    [("CUDA_VISIBLE_DEVICES", joinGPUIds gpu_ids),
     ("NVIDIA_VISIBLE_DEVICES", joinGPUIds gpu_ids),
     ("TRAINFORGE_JOB_ID", job_id),
     ("WORLD_SIZE", toString gpu_ids.length),
     ("NCCL_DEBUG", "INFO"),
     ("PYTHONUNBUFFERED", "1")]
    config_env_vars

/-- The environment bindings `DistributedTrainer` injects into a training
launch: the `env_vars` dict of `_start_docker_container`, and equally the
overrides `_start_subprocess_training` applies on top of `os.environ`. The
distributed block is added only when `is_distributed` is true. -/
def distributed_training_env (job_id : String) (gpu_ids : List Nat)
    (is_distributed : Bool) (rank : Nat) (world_size : Nat) :
    List (String × String) :=
  [("CUDA_VISIBLE_DEVICES", joinGPUIds gpu_ids),
   ("TRAINFORGE_JOB_ID", job_id),
   ("PYTHONUNBUFFERED", "1")] ++
  (if is_distributed then
    [("RANK", toString rank),
     ("WORLD_SIZE", toString world_size),
     ("MASTER_ADDR", "localhost"),
     ("MASTER_PORT", "29500")]
   else [])

/-- The fields of a job dict the worker reads in `_process_job`. -/
structure WorkerJob where
  job_id : String
  project_name : String
  training_script : String
deriving DecidableEq

/-- The observable outcome of `TrainForgeWorker._process_job` for one job:
the terminal status it PUTs, the error message it attaches, and whether a
training subprocess was ever started. -/
structure WorkerJobOutcome where
  final_status : String
  error_message : Option String
  training_started : Bool
deriving DecidableEq

/-- `TrainForgeWorker._execute_training`: raises (modelled as
`Except.error`) when the declared entrypoint is absent from the extracted
project directory, otherwise starts the subprocess and reports whether the
exit code was zero. `files` is the content of the job directory and
`exit_code` the observed subprocess exit code. -/
def execute_training (files : List String) (script_name : String)
    (exit_code : Int) : Except String Bool :=
  if script_name ∈ files then Except.ok (exit_code == 0)
  else Except.error ("Training script not found: " ++ script_name)

/-- `TrainForgeWorker._process_job`: download failure or an
`_execute_training` exception is caught and turns into a FAILED status with
the exception text; a started process yields completed or failed by exit
code. `project_files_found` models whether the stored project archive
exists. -/
def process_job (job : WorkerJob) (project_files_found : Bool)
    (files : List String) (exit_code : Int) : WorkerJobOutcome :=
  if project_files_found = false then
    { final_status := "failed"
      error_message := some ("Project files not found: " ++ job.job_id)
      training_started := false }
  else
    match execute_training files job.training_script exit_code with
    | Except.error msg =>
        { final_status := "failed"
          error_message := some msg
          training_started := false }
    | Except.ok true =>
        { final_status := "completed"
          error_message := none
          training_started := true }
    | Except.ok false =>
        { final_status := "failed"
          error_message := none
          training_started := true }

/-- A test device: AVAILABLE, unallocated, with the given id and free
memory, 16384 MiB total. -/
def testGPU (gpu_id memory_free_mb : Nat) : GPUInfo :=
  { gpu_id := gpu_id
    name := "NVIDIA GeForce RTX 3080"
    memory_total_mb := 16384
    memory_used_mb := 16384 - memory_free_mb
    memory_free_mb := memory_free_mb
    utilization_percent := 0
    temperature_celsius := 40
    power_usage_watts := 50
    status := GPUStatus.available
    allocated_to := none
    allocated_memory_mb := 0 }

/-- A freshly discovered host with one free GPU. -/
def exOneGPU : GPUManagerState :=
  { gpus := [testGPU 0 10000], allocations := [] }

/-- A freshly discovered host with two free GPUs of equal free memory. -/
def exTwoGPUs : GPUManagerState :=
  { gpus := [testGPU 0 10000, testGPU 1 10000], allocations := [] }

/-- A host where device 1 has more free memory than device 0. -/
def cexOrderState : GPUManagerState :=
  { gpus := [testGPU 0 5000, testGPU 1 9000], allocations := [] }

/-- A call sequence allocating two jobs and releasing one. -/
def exOpsTwoJobs : List GPUOp :=
  [GPUOp.alloc "job-a" 1 4096 0, GPUOp.alloc "job-b" 1 4096 1, GPUOp.dealloc "job-a"]

/-- A call sequence that allocates the same job twice and then releases it:
the second allocation overwrites the job's record. -/
def cexReleaseOps : List GPUOp :=
  [GPUOp.alloc "job-r" 1 4096 0, GPUOp.alloc "job-r" 1 4096 1, GPUOp.dealloc "job-r"]

/-- A GPU manager state holding one device for job-c with a matching
record. -/
def exGPUHeld : GPUManagerState :=
  { gpus := [{ testGPU 0 10000 with
                status := GPUStatus.allocated
                allocated_to := some "job-c"
                allocated_memory_mb := 4096 },
             testGPU 1 9000]
    allocations := [{ job_id := "job-c"
                      gpu_ids := [0]
                      allocated_memory_mb := 4096
                      allocated_at := 0
                      worker_node := "localhost" }] }

/-- A test core with the given id and holder. -/
def testCPUCore (core_id : Nat) (holder : Option String) : CPUCoreInfo :=
  { core_id := core_id
    usage_percent := 5
    frequency_mhz := 2800
    temperature := none
    allocated_to := holder
    status := match holder with
      | some _ => CPUStatus.allocated
      | none => CPUStatus.available }

/-- A CPU manager state with one node, one core held by job-c, and the
matching allocation record. -/
def exCPUHeld : CPUManagerState :=
  { nodes := [{ node_id := 0
                cores := [testCPUCore 0 (some "job-c"), testCPUCore 1 none]
                total_cores := 2
                available_cores := 1
                memory_gb := 16
                memory_used_gb := 1
                memory_available_gb := 15
                cache_l3_kb := 8192
                architecture := "x86_64"
                status := CPUStatus.available }]
    allocations := [{ job_id := "job-c"
                      allocated_cores := [0]
                      allocated_memory_gb := 2
                      node_ids := [0]
                      allocated_at := 0
                      worker_node := "localhost"
                      process_affinity := true
                      priority := 0 }] }

/-- A normal-priority single-GPU request with job id job-1. -/
def exSchedRequest : SchedJobRequest :=
  { job_id := "job-1"
    project_name := "demo-project"
    training_script := "train.py"
    gpu_count := 1
    memory_per_gpu := 4096
    priority := JobPriority.normal
    submitted_at := 0 }

/-- A second normal-priority single-GPU request with job id job-2. -/
def exSchedRequest2 : SchedJobRequest :=
  { exSchedRequest with job_id := "job-2" }

/-- A scheduled job running job-1 on device 0 with two containers. -/
def exScheduledJob : ScheduledJob :=
  { request := exSchedRequest
    allocated_gpus := [0]
    worker_nodes := ["localhost"]
    container_ids := ["container-1", "container-2"]
    started_at := 0 }

/-- The GPU manager state while job-1 runs on device 0. -/
def exSchedGPU : GPUManagerState :=
  { gpus := [{ testGPU 0 10000 with
                status := GPUStatus.allocated
                allocated_to := some "job-1"
                allocated_memory_mb := 4096 }]
    allocations := [{ job_id := "job-1"
                      gpu_ids := [0]
                      allocated_memory_mb := 4096
                      allocated_at := 0
                      worker_node := "localhost" }] }

/-- A scheduler state with job-1 running and nothing completed or failed. -/
def exSchedulerState : SchedulerState :=
  { running_jobs := [("job-1", exScheduledJob)]
    completed_jobs := []
    failed_jobs := []
    gpu := exSchedGPU }

theorem findBy_eq_some {α : Type} (key : α → String) (l : List α) (k : String) (a : α)
    (h : findBy key l k = some a) : a ∈ l ∧ key a = k := by
  induction l with
  | nil => simp [findBy] at h
  | cons x rest ih =>
      by_cases hx : key x = k
      · rw [findBy, if_pos (by simp [hx])] at h
        cases h
        exact ⟨List.mem_cons_self _ _, hx⟩
      · rw [findBy, if_neg (by simp [hx])] at h
        obtain ⟨hm, hk⟩ := ih h
        exact ⟨List.mem_cons_of_mem _ hm, hk⟩

theorem findBy_eq_none {α : Type} (key : α → String) (l : List α) (k : String) :
    findBy key l k = none ↔ ∀ a ∈ l, key a ≠ k := by
  induction l with
  | nil => simp [findBy]
  | cons x rest ih =>
      by_cases hx : key x = k
      · simp [findBy, hx]
      · simp [findBy, hx, ih]

theorem findBy_removeBy {α : Type} (key : α → String) (l : List α) (k : String) :
    findBy key (removeBy key l k) k = none := by
  rw [findBy_eq_none]
  intro a ha
  have h := List.mem_filter.1 ha
  simpa using h.2

theorem mem_map_key_updateBy {α : Type} (key : α → String) (l : List α) (a : α) (k : String)
    (h : k ∈ (updateBy key l a).map key) : k = key a ∨ k ∈ l.map key := by
  induction l with
  | nil => simpa [updateBy] using h
  | cons x rest ih =>
      by_cases hx : key x = key a
      · rw [updateBy, if_pos (by simp [hx])] at h
        rw [List.map_cons] at h
        rcases List.mem_cons.1 h with he | hm
        · exact Or.inl he
        · exact Or.inr (by rw [List.map_cons]; exact List.mem_cons_of_mem _ hm)
      · rw [updateBy, if_neg (by simp [hx])] at h
        rw [List.map_cons] at h
        rcases List.mem_cons.1 h with he | hm
        · exact Or.inr (by rw [List.map_cons, he]; exact List.mem_cons_self _ _)
        · rcases ih hm with he | hm2
          · exact Or.inl he
          · exact Or.inr (by rw [List.map_cons]; exact List.mem_cons_of_mem _ hm2)

theorem nodup_map_key_updateBy {α : Type} (key : α → String) (l : List α) (a : α)
    (h : (l.map key).Nodup) : ((updateBy key l a).map key).Nodup := by
  induction l with
  | nil => simp [updateBy]
  | cons x rest ih =>
      rw [List.map_cons, List.nodup_cons] at h
      by_cases hx : key x = key a
      · rw [updateBy, if_pos (by simp [hx]), List.map_cons, List.nodup_cons]
        exact ⟨by rw [← hx]; exact h.1, h.2⟩
      · rw [updateBy, if_neg (by simp [hx]), List.map_cons, List.nodup_cons]
        refine ⟨?_, ih h.2⟩
        intro hmem
        rcases mem_map_key_updateBy key rest a (key x) hmem with he | hm
        · exact hx he
        · exact h.1 hm

theorem mem_updateBy {α : Type} (key : α → String) (l : List α) (a : α) (x : α)
    (hnd : (l.map key).Nodup) (h : x ∈ updateBy key l a) :
    x = a ∨ (x ∈ l ∧ key x ≠ key a) := by
  induction l with
  | nil =>
      simp [updateBy] at h
      exact Or.inl h
  | cons y rest ih =>
      rw [List.map_cons, List.nodup_cons] at hnd
      by_cases hy : key y = key a
      · rw [updateBy, if_pos (by simp [hy])] at h
        rcases List.mem_cons.1 h with rfl | hrest
        · exact Or.inl rfl
        · refine Or.inr ⟨List.mem_cons_of_mem _ hrest, ?_⟩
          intro hxa
          apply hnd.1
          rw [hy, ← hxa]
          exact List.mem_map_of_mem key hrest
      · rw [updateBy, if_neg (by simp [hy])] at h
        rcases List.mem_cons.1 h with rfl | hrest
        · exact Or.inr ⟨List.mem_cons_self _ _, hy⟩
        · rcases ih hnd.2 hrest with rfl | ⟨hm, hk⟩
          · exact Or.inl rfl
          · exact Or.inr ⟨List.mem_cons_of_mem _ hm, hk⟩

theorem findBy_updateBy_self {α : Type} (key : α → String) (l : List α) (a : α) :
    findBy key (updateBy key l a) (key a) = some a := by
  induction l with
  | nil => simp [updateBy, findBy]
  | cons x rest ih =>
      by_cases hx : key x = key a
      · rw [updateBy, if_pos (by simp [hx]), findBy, if_pos (by simp)]
      · rw [updateBy, if_neg (by simp [hx]), findBy, if_neg (by simp [hx]), ih]

theorem gpuEligible_eq_true (m : Nat) (g : GPUInfo) :
    gpuEligible m g = true ↔ g.status = GPUStatus.available ∧ m ≤ g.memory_free_mb := by
  simp [gpuEligible]

theorem mem_availableGPUIds (s : GPUManagerState) (m : Nat) (i : Nat)
    (h : i ∈ availableGPUIds s m) :
    ∃ g ∈ s.gpus, g.gpu_id = i ∧ g.status = GPUStatus.available ∧ m ≤ g.memory_free_mb := by
  rw [availableGPUIds] at h
  obtain ⟨g, hg, rfl⟩ := List.mem_map.1 h
  have hf := List.mem_filter.1 hg
  exact ⟨g, hf.1, rfl, (gpuEligible_eq_true m g).1 hf.2⟩

theorem map_gpu_id_alloc (l : List GPUInfo) (T : List Nat) (j : String) (m : Nat) :
    (l.map (fun g =>
      if g.gpu_id ∈ T then
        { g with status := GPUStatus.allocated, allocated_to := some j,
                 allocated_memory_mb := m }
      else g)).map (fun g => g.gpu_id) = l.map (fun g => g.gpu_id) := by
  induction l with
  | nil => rfl
  | cons x rest ih => by_cases hx : x.gpu_id ∈ T <;> simp [hx, ih]

theorem map_gpu_id_dealloc (l : List GPUInfo) (T : List Nat) :
    (l.map (fun g =>
      if g.gpu_id ∈ T then
        { g with status := GPUStatus.available, allocated_to := none,
                 allocated_memory_mb := 0 }
      else g)).map (fun g => g.gpu_id) = l.map (fun g => g.gpu_id) := by
  induction l with
  | nil => rfl
  | cons x rest ih => by_cases hx : x.gpu_id ∈ T <;> simp [hx, ih]

/-- C9: `allocate_gpus` with count 0 is a no-op that succeeds with the empty
index list: the guard `num_gpus <= 0` returns `[]` before touching any
device or creating any allocation record, so the state is returned
unchanged. -/
theorem allocate_gpus_zero_noop (s : GPUManagerState) (job_id : String)
    (memory_per_gpu_mb : Nat) (now : ℚ) :
    allocate_gpus s job_id 0 memory_per_gpu_mb now = ([], s) := by
  simp [allocate_gpus]

/-- C1: when fewer devices are AVAILABLE with sufficient free memory than
requested, `allocate_gpus` fails (returning the empty list, the code's
InsufficientResources signal) and the manager state is returned completely
unchanged: no device field is mutated and no allocation record is created,
so no partial allocation is observable. -/
theorem allocate_gpus_insufficient_unchanged (s : GPUManagerState) (job_id : String)
    (num_gpus memory_per_gpu_mb : Nat) (now : ℚ)
    (h : (availableGPUIds s memory_per_gpu_mb).length < num_gpus) :
    allocate_gpus s job_id num_gpus memory_per_gpu_mb now = ([], s) := by
  have h0 : ¬ num_gpus ≤ 0 := by omega
  simp [allocate_gpus, h0, h]

/-- Witness for C1: a host with one free GPU cannot satisfy a request for
two. -/
theorem allocate_gpus_insufficient_witness :
    (availableGPUIds exOneGPU 4096).length < 2 ∧
    allocate_gpus exOneGPU "job-w" 2 4096 0 = ([], exOneGPU) :=
  ⟨by decide, allocate_gpus_insufficient_unchanged exOneGPU "job-w" 2 4096 0 (by decide)⟩

/-- C3 counterexample: with device 0 (5000 MiB free) and device 1
(9000 MiB free) both AVAILABLE, the spec's rule (largest free memory
first) selects device 1, but `allocate_gpus` selects device 0: the code
takes the first eligible devices in table order and never sorts by free
memory. -/
theorem allocate_gpus_order_counterexample :
    (allocate_gpus cexOrderState "job-a" 1 4096 0).1 = [0] ∧
    specSelectGPUIds cexOrderState 1 4096 = [1] ∧
    (allocate_gpus cexOrderState "job-a" 1 4096 0).1 ≠
      specSelectGPUIds cexOrderState 1 4096 := by
  decide

/-- C3 amended: for a satisfiable request, `allocate_gpus` returns the
first `count` devices, in table (insertion) order, whose status is
AVAILABLE and whose `memory_free_mb` is at least the floor; every returned
index names such a device. There is no reordering by free memory. -/
theorem allocate_gpus_first_eligible (s : GPUManagerState) (job_id : String)
    (num_gpus memory_per_gpu_mb : Nat) (now : ℚ)
    (h1 : 1 ≤ num_gpus) (h2 : num_gpus ≤ (availableGPUIds s memory_per_gpu_mb).length) :
    (allocate_gpus s job_id num_gpus memory_per_gpu_mb now).1 =
      (availableGPUIds s memory_per_gpu_mb).take num_gpus ∧
    ∀ i ∈ (allocate_gpus s job_id num_gpus memory_per_gpu_mb now).1,
      ∃ g ∈ s.gpus, g.gpu_id = i ∧ g.status = GPUStatus.available ∧
        memory_per_gpu_mb ≤ g.memory_free_mb := by
  have h0 : ¬ num_gpus ≤ 0 := by omega
  have hlt : ¬ (availableGPUIds s memory_per_gpu_mb).length < num_gpus := by omega
  constructor
  · simp [allocate_gpus, h0, hlt]
  · intro i hi
    simp only [allocate_gpus, if_neg h0, if_neg hlt] at hi
    exact mem_availableGPUIds s memory_per_gpu_mb i (List.take_subset _ _ hi)

/-- Witness for the amended C3: on the two-device host the first eligible
device in table order is returned. -/
theorem allocate_gpus_first_eligible_witness :
    (1 ≤ 1 ∧ 1 ≤ (availableGPUIds cexOrderState 4096).length) ∧
    (allocate_gpus cexOrderState "job-a" 1 4096 0).1 =
      (availableGPUIds cexOrderState 4096).take 1 :=
  ⟨⟨le_refl 1, by decide⟩,
   (allocate_gpus_first_eligible cexOrderState "job-a" 1 4096 0 (le_refl 1) (by decide)).1⟩

/-- C8: when the extracted project directory does not contain the declared
training entrypoint, `_execute_training` raises before any subprocess is
started and `_process_job` catches the exception: the job ends FAILED with
the descriptive message naming the missing script, and no training process
is ever started. -/
theorem worker_rejects_missing_entrypoint (job : WorkerJob) (files : List String)
    (exit_code : Int) (h : job.training_script ∉ files) :
    process_job job true files exit_code =
      { final_status := "failed"
        error_message := some ("Training script not found: " ++ job.training_script)
        training_started := false } := by
  simp [process_job, execute_training, h]

/-- Witness for C8: a project whose archive holds only main.py is rejected
when the declared entrypoint is train.py. -/
theorem worker_rejects_missing_entrypoint_witness :
    (("train.py" : String) ∉ ["main.py", "requirements.txt"]) ∧
    process_job { job_id := "job-8", project_name := "demo", training_script := "train.py" }
        true ["main.py", "requirements.txt"] 0 =
      { final_status := "failed"
        error_message := some ("Training script not found: " ++ "train.py")
        training_started := false } :=
  ⟨by decide,
   worker_rejects_missing_entrypoint
     { job_id := "job-8", project_name := "demo", training_script := "train.py" }
     ["main.py", "requirements.txt"] 0 (by decide)⟩

theorem envLookup_updateBy_ne (base : List (String × String)) (kv : String × String)
    (k : String) (h : kv.1 ≠ k) :
    envLookup (updateBy (fun p => p.1) base kv) k = envLookup base k := by
  induction base with
  | nil => simp [updateBy, envLookup, h]
  | cons p rest ih =>
      by_cases hp : p.1 = kv.1
      · rw [updateBy, if_pos (by simp [hp])]
        have h1 : (kv.1 == k) = false := by simp [h]
        have h2 : (p.1 == k) = false := by rw [hp]; simp [h]
        simp [envLookup, h1, h2]
      · rw [updateBy, if_neg (by simp [hp])]
        by_cases hk : p.1 = k
        · simp [envLookup, hk]
        · have h1 : (p.1 == k) = false := by simp [hk]
          simp [envLookup, h1, ih]

theorem envLookup_envUpdate_ne (base ov : List (String × String)) (k : String)
    (h : ∀ kv ∈ ov, kv.1 ≠ k) :
    envLookup (envUpdate base ov) k = envLookup base k := by
  induction ov generalizing base with
  | nil => rfl
  | cons kv rest ih =>
      have step : envUpdate base (kv :: rest) =
          envUpdate (updateBy (fun p => p.1) base kv) rest := rfl
      rw [step, ih _ (fun x hx => h x (List.mem_cons_of_mem _ hx)),
        envLookup_updateBy_ne base kv k (h kv (List.mem_cons_self _ _))]

/-- C5 counterexample: a non-distributed launch through the distributed
trainer (the subprocess fallback of `_start_subprocess_training`, equally
the docker path of `_start_docker_container`) injects no WORLD_SIZE at all:
the claim that every launched training process sees WORLD_SIZE fails for a
single-GPU job on this backend. -/
theorem env_injection_counterexample :
    envLookup (distributed_training_env "job-5" [0] false 0 1) "WORLD_SIZE" = none ∧
    envLookup (distributed_training_env "job-5" [0] false 0 1) "TRAINFORGE_JOB_ID" =
      some "job-5" ∧
    envLookup (distributed_training_env "job-5" [0] false 0 1) "CUDA_VISIBLE_DEVICES" =
      some "0" := by
  decide

/-- C5 amended: the container manager's environment always carries
TRAINFORGE_JOB_ID, the comma-joined CUDA_VISIBLE_DEVICES,
WORLD_SIZE equal to the number of passed devices and PYTHONUNBUFFERED=1,
and never RANK (provided the free-form config variables do not redefine
those keys); the distributed trainer's launches always carry
TRAINFORGE_JOB_ID, CUDA_VISIBLE_DEVICES and PYTHONUNBUFFERED=1, and carry
WORLD_SIZE, RANK, MASTER_ADDR and MASTER_PORT exactly when the launch is
distributed — in particular a non-distributed launch on that backend has
no WORLD_SIZE. -/
theorem env_injection_amended :
    (∀ (job_id : String) (gpu_ids : List Nat) (cfg : List (String × String)),
      (∀ kv ∈ cfg, kv.1 ≠ "TRAINFORGE_JOB_ID" ∧ kv.1 ≠ "CUDA_VISIBLE_DEVICES" ∧
        kv.1 ≠ "WORLD_SIZE" ∧ kv.1 ≠ "PYTHONUNBUFFERED" ∧ kv.1 ≠ "RANK") →
      envLookup (prepare_container_environment job_id gpu_ids cfg) "TRAINFORGE_JOB_ID" =
          some job_id ∧
      envLookup (prepare_container_environment job_id gpu_ids cfg) "CUDA_VISIBLE_DEVICES" =
          some (joinGPUIds gpu_ids) ∧
      envLookup (prepare_container_environment job_id gpu_ids cfg) "WORLD_SIZE" =
          some (toString gpu_ids.length) ∧
      envLookup (prepare_container_environment job_id gpu_ids cfg) "PYTHONUNBUFFERED" =
          some "1" ∧
      envLookup (prepare_container_environment job_id gpu_ids cfg) "RANK" = none) ∧
    (∀ (job_id : String) (gpu_ids : List Nat) (d : Bool) (rank world_size : Nat),
      envLookup (distributed_training_env job_id gpu_ids d rank world_size)
          "TRAINFORGE_JOB_ID" = some job_id ∧
      envLookup (distributed_training_env job_id gpu_ids d rank world_size)
          "CUDA_VISIBLE_DEVICES" = some (joinGPUIds gpu_ids) ∧
      envLookup (distributed_training_env job_id gpu_ids d rank world_size)
          "PYTHONUNBUFFERED" = some "1" ∧
      envLookup (distributed_training_env job_id gpu_ids d rank world_size)
          "WORLD_SIZE" = (if d then some (toString world_size) else none) ∧
      envLookup (distributed_training_env job_id gpu_ids d rank world_size)
          "RANK" = (if d then some (toString rank) else none) ∧
      envLookup (distributed_training_env job_id gpu_ids d rank world_size)
          "MASTER_ADDR" = (if d then some "localhost" else none) ∧
      envLookup (distributed_training_env job_id gpu_ids d rank world_size)
          "MASTER_PORT" = (if d then some "29500" else none)) := by
  constructor
  · intro job_id gpu_ids cfg hcfg
    refine ⟨?_, ?_, ?_, ?_, ?_⟩
    · rw [prepare_container_environment,
        envLookup_envUpdate_ne _ cfg _ (fun kv hkv => (hcfg kv hkv).1)]
      rfl
    · rw [prepare_container_environment,
        envLookup_envUpdate_ne _ cfg _ (fun kv hkv => (hcfg kv hkv).2.1)]
      rfl
    · rw [prepare_container_environment,
        envLookup_envUpdate_ne _ cfg _ (fun kv hkv => (hcfg kv hkv).2.2.1)]
      rfl
    · rw [prepare_container_environment,
        envLookup_envUpdate_ne _ cfg _ (fun kv hkv => (hcfg kv hkv).2.2.2.1)]
      rfl
    · rw [prepare_container_environment,
        envLookup_envUpdate_ne _ cfg _ (fun kv hkv => (hcfg kv hkv).2.2.2.2)]
      rfl
  · intro job_id gpu_ids d rank world_size
    cases d
    · exact ⟨rfl, rfl, rfl, rfl, rfl, rfl, rfl⟩
    · exact ⟨rfl, rfl, rfl, rfl, rfl, rfl, rfl⟩

/-- Witness for the amended C5: concrete container environment with a
free-form variable, and a distributed launch of rank 2 in a world of 4. -/
theorem env_injection_amended_witness :
    (∀ kv ∈ ([("EPOCHS", "10")] : List (String × String)),
      kv.1 ≠ "TRAINFORGE_JOB_ID" ∧ kv.1 ≠ "CUDA_VISIBLE_DEVICES" ∧
      kv.1 ≠ "WORLD_SIZE" ∧ kv.1 ≠ "PYTHONUNBUFFERED" ∧ kv.1 ≠ "RANK") ∧
    envLookup (prepare_container_environment "job-5" [0, 1] [("EPOCHS", "10")])
      "WORLD_SIZE" = some (toString ([0, 1] : List Nat).length) ∧
    envLookup (distributed_training_env "job-5" [2] true 2 4) "RANK" =
      (if true then some (toString 2) else none) :=
  ⟨by decide,
   (env_injection_amended.1 "job-5" [0, 1] [("EPOCHS", "10")] (by decide)).2.2.1,
   (env_injection_amended.2 "job-5" [2] true 2 4).2.2.2.2.1⟩

/-- C4 (code bug): cancelling the running job job-1 succeeds, but the
scheduler stores the job in `failed_jobs` (on the line commented
"Mark as cancelled") and `get_job_status` afterwards reports "failed", not
"cancelled" — the code has no cancelled terminal state at all, contradicting
the spec's CANCELLED ≠ FAILED and the code's own comment. -/
theorem cancel_job_reports_failed :
    (cancel_job exSchedulerState "job-1").1 = true ∧
    get_job_status (cancel_job exSchedulerState "job-1").2 "job-1" = some "failed" ∧
    get_job_status (cancel_job exSchedulerState "job-1").2 "job-1" ≠ some "cancelled" := by
  decide

/-- C6 amended: the priority score is base(priority) − wait/3600 + 10·gpus;
the base values impose URGENT < HIGH < NORMAL < LOW; the wait bonus is
linear in the time since submission; the resource penalty is 10 per
requested GPU; the queue dequeues the lower score first and breaks score
ties by the earlier put timestamp — which equals the submission timestamp
for freshly submitted jobs, so among two freshly submitted equal-score jobs
the earlier submission is dequeued first, whichever order they were
inserted in. -/
theorem priority_score_and_dequeue_order :
    (∀ (now : ℚ) (r : SchedJobRequest),
      calculate_priority_score now r =
        priorityBaseScore r.priority - (now - r.submitted_at) / 3600 + r.gpu_count * 10) ∧
    (priorityBaseScore JobPriority.urgent < priorityBaseScore JobPriority.high ∧
     priorityBaseScore JobPriority.high < priorityBaseScore JobPriority.normal ∧
     priorityBaseScore JobPriority.normal < priorityBaseScore JobPriority.low) ∧
    (∀ (now d : ℚ) (r : SchedJobRequest),
      calculate_priority_score (now + d) r = calculate_priority_score now r - d / 3600) ∧
    (∀ (now : ℚ) (r : SchedJobRequest) (g : Nat),
      calculate_priority_score now { r with gpu_count := g } =
        calculate_priority_score now { r with gpu_count := 0 } + g * 10) ∧
    (∀ e1 e2 : QueueEntry, e1.score < e2.score →
      dequeueMin [e1, e2] = some e1 ∧ dequeueMin [e2, e1] = some e1) ∧
    (∀ (t1 t2 : ℚ) (r1 r2 : SchedJobRequest), t1 < t2 →
      (submitFresh t1 r1).score = (submitFresh t2 r2).score →
      dequeueMin [submitFresh t1 r1, submitFresh t2 r2] = some (submitFresh t1 r1) ∧
      dequeueMin [submitFresh t2 r2, submitFresh t1 r1] = some (submitFresh t1 r1)) := by
  refine ⟨fun now r => rfl, by norm_num [priorityBaseScore], ?_, ?_, ?_, ?_⟩
  · intro now d r
    rw [calculate_priority_score, calculate_priority_score]
    ring
  · intro now r g
    rw [calculate_priority_score, calculate_priority_score]
    push_cast
    ring
  · intro e1 e2 h
    have hn : ¬ queueEntryLt e2 e1 := by
      rw [queueEntryLt]
      push_neg
      exact ⟨le_of_lt h, fun he => absurd he (ne_of_gt h)⟩
    have hp : queueEntryLt e1 e2 := Or.inl h
    constructor
    · simp [dequeueMin, hn]
    · simp [dequeueMin, hp]
  · intro t1 t2 r1 r2 ht hs
    have hp : queueEntryLt (submitFresh t1 r1) (submitFresh t2 r2) := Or.inr ⟨hs, ht⟩
    have hn : ¬ queueEntryLt (submitFresh t2 r2) (submitFresh t1 r1) := by
      rw [queueEntryLt]
      push_neg
      exact ⟨le_of_eq hs, fun _ => le_of_lt ht⟩
    constructor
    · simp [dequeueMin, hn]
    · simp [dequeueMin, hp]

/-- Witness for C6: two equal-score normal jobs submitted at times 0 and 5;
the earlier submission is dequeued first. -/
theorem priority_dequeue_witness :
    ((0 : ℚ) < 5) ∧
    (submitFresh 0 exSchedRequest).score = (submitFresh 5 exSchedRequest2).score ∧
    dequeueMin [submitFresh 0 exSchedRequest, submitFresh 5 exSchedRequest2] =
      some (submitFresh 0 exSchedRequest) := by
  have hs : (submitFresh 0 exSchedRequest).score = (submitFresh 5 exSchedRequest2).score := by
    norm_num [submitFresh, calculate_priority_score, exSchedRequest, exSchedRequest2,
      priorityBaseScore]
  exact ⟨by norm_num, hs,
    (priority_score_and_dequeue_order.2.2.2.2.2 0 5 exSchedRequest exSchedRequest2
      (by norm_num) hs).1⟩

theorem lookupJob_updateBy_self (l : List (String × ScheduledJob)) (k : String)
    (v : ScheduledJob) :
    lookupJob k (updateBy (fun p => p.1) l (k, v)) = some v := by
  show (findBy (fun p : String × ScheduledJob => p.1)
      (updateBy (fun p => p.1) l (k, v)) ((k, v).1)).map (fun p => p.2) = some v
  rw [findBy_updateBy_self]
  rfl

theorem lookupJob_removeBy_self (l : List (String × ScheduledJob)) (k : String) :
    lookupJob k (removeBy (fun p => p.1) l k) = none := by
  rw [lookupJob, findBy_removeBy]
  rfl

/-- C10: the completion check classifies a finished job as completed exactly
when every determinable exit code is zero — undetermined (None) codes are
skipped by the success test — and consequently a running job all of whose
containers have vanished (every probe NotFound, so every exit code None) is
marked completed: it moves to `completed_jobs`, leaves `running_jobs`, and
its GPUs are deallocated. -/
theorem completion_ignores_unknown_exit_codes :
    (∀ exit_codes : List (Option Int),
      jobExitSuccess exit_codes = true ↔
        ∀ c ∈ exit_codes, ∀ v : Int, c = some v → v = 0) ∧
    (∀ (st : SchedulerState) (job_id : String) (j : ScheduledJob)
        (probes : List ContainerProbe),
      lookupJob job_id st.running_jobs = some j →
      (∀ p ∈ probes, p = ContainerProbe.notFound) →
      lookupJob job_id (check_completed_job st job_id true probes).completed_jobs = some j ∧
      lookupJob job_id (check_completed_job st job_id true probes).running_jobs = none ∧
      (check_completed_job st job_id true probes).gpu = deallocate_gpus st.gpu job_id) := by
  constructor
  · intro exit_codes
    rw [jobExitSuccess, List.all_eq_true]
    constructor
    · intro h c hc v hv
      have hx := h c hc
      rw [hv] at hx
      simpa using hx
    · intro h c hc
      cases c with
      | none => rfl
      | some v =>
          have hv := h (some v) hc v rfl
          simpa using hv
  · intro st job_id j probes hrun hnf
    have hcodes : jobExitSuccess (get_container_exit_codes true probes) = true := by
      rw [jobExitSuccess, List.all_eq_true]
      intro c hc
      rw [get_container_exit_codes, if_pos rfl] at hc
      obtain ⟨p, hp, rfl⟩ := List.mem_map.1 hc
      rw [hnf p hp]
      rfl
    have hstep : check_completed_job st job_id true probes =
        { mark_job_completed st job_id j with
          running_jobs :=
            removeBy (fun p => p.1) (mark_job_completed st job_id j).running_jobs job_id } := by
      rw [check_completed_job, hrun]
      simp only [hcodes, if_true]
    rw [hstep]
    refine ⟨?_, ?_, rfl⟩
    · exact lookupJob_updateBy_self st.completed_jobs job_id j
    · exact lookupJob_removeBy_self st.running_jobs job_id

/-- Witness for C10: job-1 runs with two containers that have both
vanished; after the check it sits in `completed_jobs`. -/
theorem completion_witness :
    lookupJob "job-1" exSchedulerState.running_jobs = some exScheduledJob ∧
    (∀ p ∈ [ContainerProbe.notFound, ContainerProbe.notFound],
      p = ContainerProbe.notFound) ∧
    lookupJob "job-1"
      (check_completed_job exSchedulerState "job-1" true
        [ContainerProbe.notFound, ContainerProbe.notFound]).completed_jobs =
      some exScheduledJob :=
  ⟨by decide, by decide,
   (completion_ignores_unknown_exit_codes.2 exSchedulerState "job-1" exScheduledJob
     [ContainerProbe.notFound, ContainerProbe.notFound] (by decide) (by decide)).1⟩

theorem deallocate_gpus_lookup_none (s : GPUManagerState) (j : String)
    (h : lookupGPUAllocation s.allocations j = none) : deallocate_gpus s j = s := by
  unfold deallocate_gpus
  rw [h]

theorem lookupGPUAllocation_deallocate (s : GPUManagerState) (j : String) :
    lookupGPUAllocation (deallocate_gpus s j).allocations j = none := by
  cases h : lookupGPUAllocation s.allocations j with
  | none =>
      rw [deallocate_gpus_lookup_none s j h]
      exact h
  | some a0 =>
      unfold deallocate_gpus
      rw [h]
      exact findBy_removeBy _ _ _

theorem deallocate_cpus_lookup_none (c : CPUManagerState) (j : String)
    (h : lookupCPUAllocation c.allocations j = none) : deallocate_cpus c j = c := by
  unfold deallocate_cpus
  rw [h]

theorem lookupCPUAllocation_deallocate (c : CPUManagerState) (j : String) :
    lookupCPUAllocation (deallocate_cpus c j).allocations j = none := by
  cases h : lookupCPUAllocation c.allocations j with
  | none =>
      rw [deallocate_cpus_lookup_none c j h]
      exact h
  | some a0 =>
      unfold deallocate_cpus
      rw [h]
      exact findBy_removeBy _ _ _

/-- C7 counterexample: from two free devices, allocating job-r, allocating
job-r again (the second call overwrites the job's record with the newly
chosen device) and then releasing job-r leaves device 0 still held by
job-r although its allocation record is gone — so after Release(J) a GPU
device can still reference J, refuting the claim as stated. -/
theorem release_incomplete_counterexample :
    (runGPUOps exTwoGPUs cexReleaseOps).gpus.map (fun g => g.allocated_to) =
      [some "job-r", none] ∧
    lookupGPUAllocation (runGPUOps exTwoGPUs cexReleaseOps).allocations "job-r" = none := by
  decide

/-- C7 amended: release is idempotent in every state (a second release of
the same job is always the identity), release always removes the job's
allocation record, and whenever the ledger is complete for the job — every
device or core holding the job is covered by the job's allocation record,
which a repeated allocate without an intervening release can break — no GPU
device and no CPU core references the job after release. -/
theorem release_idempotent_and_complete :
    (∀ (s : GPUManagerState) (job_id : String),
      deallocate_gpus (deallocate_gpus s job_id) job_id = deallocate_gpus s job_id) ∧
    (∀ (c : CPUManagerState) (job_id : String),
      deallocate_cpus (deallocate_cpus c job_id) job_id = deallocate_cpus c job_id) ∧
    (∀ (s : GPUManagerState) (job_id : String),
      lookupGPUAllocation (deallocate_gpus s job_id).allocations job_id = none) ∧
    (∀ (c : CPUManagerState) (job_id : String),
      lookupCPUAllocation (deallocate_cpus c job_id).allocations job_id = none) ∧
    (∀ (s : GPUManagerState) (job_id : String), GPULedgerComplete s job_id →
      ∀ g ∈ (deallocate_gpus s job_id).gpus, g.allocated_to ≠ some job_id) ∧
    (∀ (c : CPUManagerState) (job_id : String), CPULedgerComplete c job_id →
      ∀ node ∈ (deallocate_cpus c job_id).nodes, ∀ core ∈ node.cores,
        core.allocated_to ≠ some job_id) := by
  refine ⟨?_, ?_, ?_, ?_, ?_, ?_⟩
  · intro s j
    exact deallocate_gpus_lookup_none _ j (lookupGPUAllocation_deallocate s j)
  · intro c j
    exact deallocate_cpus_lookup_none _ j (lookupCPUAllocation_deallocate c j)
  · intro s j
    exact lookupGPUAllocation_deallocate s j
  · intro c j
    exact lookupCPUAllocation_deallocate c j
  · intro s j hled g' hg'
    cases h : lookupGPUAllocation s.allocations j with
    | none =>
        rw [deallocate_gpus_lookup_none s j h] at hg'
        intro hcon
        obtain ⟨⟨a, ha, haj⟩, _⟩ := hled g' hg' hcon
        have h' : findBy (fun a : GPUAllocation => a.job_id) s.allocations j = none := h
        exact ((findBy_eq_none (fun a : GPUAllocation => a.job_id) s.allocations j).1 h')
          a ha haj
    | some a0 =>
        have h' : findBy (fun a : GPUAllocation => a.job_id) s.allocations j = some a0 := h
        have ha0 := findBy_eq_some (fun a : GPUAllocation => a.job_id) s.allocations j a0 h'
        have hstate : deallocate_gpus s j =
            { gpus := s.gpus.map (fun g =>
                if g.gpu_id ∈ a0.gpu_ids then
                  { g with status := GPUStatus.available,
                           allocated_to := none,
                           allocated_memory_mb := 0 }
                else g)
              allocations := removeBy (fun a => a.job_id) s.allocations j } := by
          unfold deallocate_gpus
          rw [h]
        rw [hstate] at hg'
        obtain ⟨g, hg, rfl⟩ := List.mem_map.1 hg'
        by_cases hmem : g.gpu_id ∈ a0.gpu_ids
        · simp [hmem]
        · rw [if_neg hmem]
          intro hcon
          exact hmem ((hled g hg hcon).2 a0 ha0.1 ha0.2)
  · intro c j hled node' hn' core' hc'
    cases h : lookupCPUAllocation c.allocations j with
    | none =>
        rw [deallocate_cpus_lookup_none c j h] at hn'
        rcases hled with ⟨a, ha, haj⟩ | hfree
        · have h' : findBy (fun a : CPUAllocation => a.job_id) c.allocations j = none := h
          exact absurd haj
            (((findBy_eq_none (fun a : CPUAllocation => a.job_id) c.allocations j).1 h') a ha)
        · exact hfree node' hn' core' hc'
    | some a0 =>
        have hstate : deallocate_cpus c j =
            { nodes := c.nodes.map (fun node =>
                let freed_cores :=
                  (node.cores.filter (fun core => core.allocated_to == some j)).length
                { node with
                  cores := node.cores.map (fun core =>
                    if core.allocated_to == some j then
                      { core with status := CPUStatus.available, allocated_to := none }
                    else core)
                  available_cores := node.available_cores + freed_cores
                  memory_available_gb :=
                    if 0 < freed_cores then
                      node.memory_available_gb +
                        a0.allocated_memory_gb / (a0.node_ids.length : ℚ)
                    else node.memory_available_gb })
              allocations := removeBy (fun a => a.job_id) c.allocations j } := by
          unfold deallocate_cpus
          rw [h]
        rw [hstate] at hn'
        obtain ⟨node, hnode, rfl⟩ := List.mem_map.1 hn'
        obtain ⟨core, hcore, rfl⟩ := List.mem_map.1 (by simpa using hc')
        by_cases hm : core.allocated_to = some j
        · simp [hm]
        · rw [if_neg (by simpa using hm)]
          exact hm

/-- Witness for the amended C7: releasing job-c from a host where one GPU
and one core are held by job-c with matching records leaves no reference to
job-c. -/
theorem release_complete_witness :
    GPULedgerComplete exGPUHeld "job-c" ∧ CPULedgerComplete exCPUHeld "job-c" ∧
    (∀ g ∈ (deallocate_gpus exGPUHeld "job-c").gpus, g.allocated_to ≠ some "job-c") ∧
    (∀ node ∈ (deallocate_cpus exCPUHeld "job-c").nodes, ∀ core ∈ node.cores,
      core.allocated_to ≠ some "job-c") :=
  ⟨by decide, by decide,
   release_idempotent_and_complete.2.2.2.2.1 exGPUHeld "job-c" (by decide),
   release_idempotent_and_complete.2.2.2.2.2 exCPUHeld "job-c" (by decide)⟩

theorem gpu_id_ite_alloc (T : List Nat) (j : String) (m : Nat) (g : GPUInfo) :
    (if g.gpu_id ∈ T then
      ({ g with status := GPUStatus.allocated, allocated_to := some j,
                allocated_memory_mb := m } : GPUInfo)
    else g).gpu_id = g.gpu_id := by
  by_cases hx : g.gpu_id ∈ T <;> simp [hx]

theorem gpu_id_ite_dealloc (T : List Nat) (g : GPUInfo) :
    (if g.gpu_id ∈ T then
      ({ g with status := GPUStatus.available, allocated_to := none,
                allocated_memory_mb := 0 } : GPUInfo)
    else g).gpu_id = g.gpu_id := by
  by_cases hx : g.gpu_id ∈ T <;> simp [hx]

theorem gpuInv_alloc (s : GPUManagerState) (j : String) (n m : Nat) (t : ℚ)
    (h : GPUInv s) : GPUInv (allocate_gpus s j n m t).2 := by
  obtain ⟨hnd, hand, hhold, hexist⟩ := h
  by_cases h0 : n ≤ 0
  · simp only [allocate_gpus, if_pos h0]
    exact ⟨hnd, hand, hhold, hexist⟩
  by_cases hlen : (availableGPUIds s m).length < n
  · simp only [allocate_gpus, if_neg h0, if_pos hlen]
    exact ⟨hnd, hand, hhold, hexist⟩
  simp only [allocate_gpus, if_neg h0, if_neg hlen]
  refine ⟨?_, ?_, ?_, ?_⟩
  · rw [map_gpu_id_alloc]
    exact hnd
  · exact nodup_map_key_updateBy _ _ _ hand
  · intro g' hg' a' ha' hmem
    obtain ⟨g, hg, rfl⟩ := List.mem_map.1 hg'
    rcases mem_updateBy (fun a => a.job_id) s.allocations _ a' hand ha' with rfl | ⟨haold, hane⟩
    · rw [gpu_id_ite_alloc] at hmem
      have hmem' : g.gpu_id ∈ (availableGPUIds s m).take n := hmem
      simp [hmem']
    · rw [gpu_id_ite_alloc] at hmem
      have hold := hhold g hg a' haold hmem
      have hnotT : g.gpu_id ∉ (availableGPUIds s m).take n := by
        intro hTmem
        have hmemA : g.gpu_id ∈ availableGPUIds s m := List.take_subset _ _ hTmem
        obtain ⟨g2, hg2, hgid, hstat, _⟩ := mem_availableGPUIds s m _ hmemA
        have hgg : g2 = g := List.inj_on_of_nodup_map hnd hg2 hg hgid
        rw [hgg] at hstat
        exact absurd (hold.2.symm.trans hstat) (by decide)
      simp only [if_neg hnotT]
      exact hold
  · intro a' ha' i hi
    rcases mem_updateBy (fun a => a.job_id) s.allocations _ a' hand ha' with rfl | ⟨haold, _⟩
    · have hi' : i ∈ availableGPUIds s m := List.take_subset _ _ hi
      obtain ⟨g, hg, hgid, _, _⟩ := mem_availableGPUIds s m i hi'
      refine ⟨_, List.mem_map_of_mem _ hg, ?_⟩
      rw [gpu_id_ite_alloc]
      exact hgid
    · obtain ⟨g, hg, hgid⟩ := hexist a' haold i hi
      refine ⟨_, List.mem_map_of_mem _ hg, ?_⟩
      rw [gpu_id_ite_alloc]
      exact hgid

theorem gpuInv_dealloc (s : GPUManagerState) (j : String) (h : GPUInv s) :
    GPUInv (deallocate_gpus s j) := by
  obtain ⟨hnd, hand, hhold, hexist⟩ := h
  cases hl : lookupGPUAllocation s.allocations j with
  | none =>
      rw [deallocate_gpus_lookup_none s j hl]
      exact ⟨hnd, hand, hhold, hexist⟩
  | some a0 =>
      have hl' : findBy (fun a : GPUAllocation => a.job_id) s.allocations j = some a0 := hl
      have ha0 := findBy_eq_some (fun a : GPUAllocation => a.job_id) s.allocations j a0 hl'
      have hstate : deallocate_gpus s j =
          { gpus := s.gpus.map (fun g =>
              if g.gpu_id ∈ a0.gpu_ids then
                { g with status := GPUStatus.available,
                         allocated_to := none,
                         allocated_memory_mb := 0 }
              else g)
            allocations := removeBy (fun a => a.job_id) s.allocations j } := by
        unfold deallocate_gpus
        rw [hl]
      rw [hstate]
      refine ⟨?_, ?_, ?_, ?_⟩
      · rw [map_gpu_id_dealloc]
        exact hnd
      · have hsub : List.Sublist
            (removeBy (fun a : GPUAllocation => a.job_id) s.allocations j)
            s.allocations := List.filter_sublist _
        exact List.Nodup.sublist (hsub.map _) hand
      · intro g' hg' a' ha' hmem
        have ha'mem := List.mem_filter.1 ha'
        have hane : a'.job_id ≠ j := by simpa using ha'mem.2
        obtain ⟨g, hg, rfl⟩ := List.mem_map.1 hg'
        rw [gpu_id_ite_dealloc] at hmem
        by_cases hx : g.gpu_id ∈ a0.gpu_ids
        · have h1 := hhold g hg a' ha'mem.1 hmem
          have h2 := hhold g hg a0 ha0.1 hx
          have he : a'.job_id = a0.job_id := Option.some.inj (h1.1.symm.trans h2.1)
          exact absurd (he.trans ha0.2) hane
        · simp only [if_neg hx]
          exact hhold g hg a' ha'mem.1 hmem
      · intro a' ha' i hi
        have ha'mem := List.mem_filter.1 ha'
        obtain ⟨g, hg, hgid⟩ := hexist a' ha'mem.1 i hi
        refine ⟨_, List.mem_map_of_mem _ hg, ?_⟩
        rw [gpu_id_ite_dealloc]
        exact hgid

theorem gpuInv_applyOp (s : GPUManagerState) (op : GPUOp) (h : GPUInv s) :
    GPUInv (applyGPUOp s op) := by
  cases op with
  | alloc j n m t => exact gpuInv_alloc s j n m t h
  | dealloc j => exact gpuInv_dealloc s j h

theorem gpuInv_run (s : GPUManagerState) (ops : List GPUOp) (h : GPUInv s) :
    GPUInv (runGPUOps s ops) := by
  induction ops generalizing s with
  | nil => exact h
  | cons op rest ih => exact ih _ (gpuInv_applyOp s op h)

theorem gpuInv_of_initOk (s : GPUManagerState) (h : GPUInitOk s) : GPUInv s := by
  obtain ⟨hnd, hemp⟩ := h
  refine ⟨hnd, ?_, ?_, ?_⟩
  · rw [hemp]
    exact List.nodup_nil
  · intro g hg a ha
    rw [hemp] at ha
    exact absurd ha (List.not_mem_nil a)
  · intro a ha
    rw [hemp] at ha
    exact absurd ha (List.not_mem_nil a)

theorem gpuInv_noDoubleHold (s : GPUManagerState) (h : GPUInv s) : GPUNoDoubleHold s := by
  obtain ⟨hnd, hand, hhold, hexist⟩ := h
  constructor
  · intro g hg a ha hmem
    exact (hhold g hg a ha hmem).1
  · intro a ha b hb i hia hib
    obtain ⟨g, hg, hgid⟩ := hexist a ha i hia
    have h1 := (hhold g hg a ha (by rw [hgid]; exact hia)).1
    have h2 := (hhold g hg b hb (by rw [hgid]; exact hib)).1
    exact Option.some.inj (h1.symm.trans h2)

/-- C2: in every state reachable from a freshly discovered manager state by
any sequence of `allocate_gpus` and `deallocate_gpus` calls, no GPU device
is held by two jobs: a device listed in an allocation record is held by
exactly that record's job, and no device index appears in the `gpu_ids` of
two allocation records of distinct jobs. -/
theorem gpu_no_double_hold (init : GPUManagerState) (ops : List GPUOp)
    (h : GPUInitOk init) : GPUNoDoubleHold (runGPUOps init ops) :=
  gpuInv_noDoubleHold _ (gpuInv_run init ops (gpuInv_of_initOk init h))

/-- Witness for C2: two jobs allocated on a two-device host and one of them
released. -/
theorem gpu_no_double_hold_witness :
    GPUInitOk exTwoGPUs ∧ GPUNoDoubleHold (runGPUOps exTwoGPUs exOpsTwoJobs) :=
  ⟨by decide, gpu_no_double_hold exTwoGPUs exOpsTwoJobs (by decide)⟩

/-- C6 counterexample: ties do not break by submission timestamp but by the
tuple's put timestamp, which `_schedule_pending_jobs` resets on requeue. A
LOW job submitted at time 0 and requeued at time 360000 scores
300 − 100 + 10 = 210; a NORMAL job freshly submitted at time 359000 scores
200 − 0 + 10 = 210. The scores are equal and the LOW job's submission is
earlier, yet the queue dequeues the NORMAL job first in either insertion
order, because its put timestamp (359000) precedes the requeue timestamp
(360000). -/
theorem priority_tie_counterexample :
    (requeueEntry 360000 cexRequeuedLow).score = (submitFresh 359000 cexFreshNormal).score ∧
    (requeueEntry 360000 cexRequeuedLow).request.submitted_at <
      (submitFresh 359000 cexFreshNormal).request.submitted_at ∧
    dequeueMin [requeueEntry 360000 cexRequeuedLow, submitFresh 359000 cexFreshNormal] =
      some (submitFresh 359000 cexFreshNormal) ∧
    dequeueMin [submitFresh 359000 cexFreshNormal, requeueEntry 360000 cexRequeuedLow] =
      some (submitFresh 359000 cexFreshNormal) := by
  have hs : (requeueEntry 360000 cexRequeuedLow).score =
      (submitFresh 359000 cexFreshNormal).score := by
    norm_num [requeueEntry, submitFresh, calculate_priority_score, priorityBaseScore,
      cexRequeuedLow, cexFreshNormal]
  have ht : (submitFresh 359000 cexFreshNormal).enqueued_at <
      (requeueEntry 360000 cexRequeuedLow).enqueued_at := by
    norm_num [requeueEntry, submitFresh]
  have hlt : queueEntryLt (submitFresh 359000 cexFreshNormal)
      (requeueEntry 360000 cexRequeuedLow) := Or.inr ⟨hs.symm, ht⟩
  have hn : ¬ queueEntryLt (requeueEntry 360000 cexRequeuedLow)
      (submitFresh 359000 cexFreshNormal) := by
    rw [queueEntryLt]
    push_neg
    exact ⟨le_of_eq hs.symm, fun _ => le_of_lt ht⟩
  refine ⟨hs, ?_, ?_, ?_⟩
  · norm_num [requeueEntry, submitFresh, cexRequeuedLow, cexFreshNormal]
  · simp [dequeueMin, hlt]
  · simp [dequeueMin, hn]
